import Mathlib

/-!
Verification of the A-Star-Photo-Editor image pipeline against its
specification.  The Python sources are embedded shallowly:

* `src/color_tools/hex_tools.py` — `clamp`, `colorscale`, `rgb_to_hex`
  become pure Lean functions over `ℚ` / `ℤ` / `String`; the `ValueError`
  that `int(s, 16)` can raise is modelled with `Except`.
* `src/image_tools/manipulator.py` — the `ImageManipulator` class becomes a
  state structure over an abstract image type, parameterised by the bundle
  of Pillow primitives (`PILOps`) the stages delegate to; each stage's guard
  (`if param != DEFAULT`) is embedded verbatim.
* `src/main.py` — `App.manipulate_image` becomes a function from the
  application state (original image, working image) and the parameter set to
  the new state; `App.save_thumbnail` is embedded against a heap of image
  objects, because Python's `copy = self.image` aliases the object and
  `Image.thumbnail` mutates it in place, which matters for the
  never-mutate-the-original invariant.
* `src/panel.py` — the palette post-processing of
  `ColorsPanel.generate_palette` (sort by proportion, slice, hex-encode)
  is embedded over the list of colors the extraction library returns.
-/

namespace AStar

/-! ## Python-level error values -/

/-- The Python exceptions that the embedded code can raise. -/
inductive PyExn where
  | valueError : PyExn
  | osError : PyExn
  | attributeError : String → PyExn
deriving DecidableEq, Repr

/-! ## `src/color_tools/hex_tools.py` -/

/-- Python `int(x)` applied to a real number: truncation toward zero. -/
def pytrunc (q : ℚ) : ℤ :=
  if q < 0 then ⌈q⌉ else ⌊q⌋

/-- `clamp(val, minimum=0, maximum=255)` from `src/color_tools/hex_tools.py`
lines 16–32: values below `minimum` give `minimum`, above `maximum` give
`maximum`, and anything else is truncated to an integer by Python `int()`.
The Python defaults are `minimum = 0`, `maximum = 255`; call sites below pass
them explicitly. -/
def clamp (val : ℚ) (minimum maximum : ℤ) : ℤ :=
  if val < (minimum : ℚ) then minimum
  else if val > (maximum : ℚ) then maximum
  else pytrunc val

/-- The value of one hexadecimal digit, as accepted by Python `int(_, 16)`. -/
def hexDigitVal (c : Char) : Option ℕ :=
  if '0' ≤ c ∧ c ≤ '9' then some (c.toNat - '0'.toNat)
  else if 'a' ≤ c ∧ c ≤ 'f' then some (c.toNat - 'a'.toNat + 10)
  else if 'A' ≤ c ∧ c ≤ 'F' then some (c.toNat - 'A'.toNat + 10)
  else none

/-- Python `int(s, 16)` on the character list `s`, for the strings this code
feeds it: `none` models the `ValueError` raised on an empty slice or a
non-hex character.  (Python additionally tolerates surrounding whitespace, a
sign, underscores and an `0x` prefix; the hex color slices handled here never
contain those.) -/
def pyIntHex (cs : List Char) : Option ℕ :=
  if cs.isEmpty then none
  else cs.foldl (fun acc c => acc.bind fun n => (hexDigitVal c).map fun d => n * 16 + d)
    (some 0)

/-- Python `str.strip('#')`: removes *all* leading and trailing `'#'`
characters. -/
def stripHash (s : String) : String :=
  String.mk (((s.toList.dropWhile (· = '#')).reverse.dropWhile (· = '#')).reverse)

/-- One lowercase hex digit, as produced by Python `%x` formatting. -/
def hexChar (n : ℕ) : Char :=
  if n < 10 then Char.ofNat ('0'.toNat + n) else Char.ofNat ('a'.toNat + (n - 10))

/-- The lowercase hexadecimal digits of `n`, most significant first
(`[hexChar n]` when `n < 16`), as produced by Python `%x`. -/
def hexDigits (n : ℕ) : List Char :=
  (Nat.toDigits 16 n)

/-- Python `"%02x" % n` / `f"{n:02x}"`: lowercase hex, left-padded with `'0'`
to width 2; wider than 2 characters when `n > 255` (no clamping). -/
def pyHex2 (n : ℕ) : List Char :=
  let d := hexDigits n
  if d.length < 2 then '0' :: d else d

/-- `rgb_to_hex(r, g, b)` from `src/color_tools/hex_tools.py` lines 2–14:
formats the three channel values as `#rrggbb` via `f'#{r:02x}{g:02x}{b:02x}'`.
No clamping is performed (values above 255 format wider than two digits).
The Python signature annotates the channels as `float`, but every call site
passes integers, so the embedding takes `ℕ`. -/
def rgb_to_hex (r g b : ℕ) : String :=
  String.mk ('#' :: (pyHex2 r ++ pyHex2 g ++ pyHex2 b))

/-- `colorscale(hexstr, scale_factor)` from `src/color_tools/hex_tools.py`
lines 34–68, line by line: strip `'#'`; parse the slices `[:2]`, `[2:4]`,
`[4:]` with `int(_, 16)` (this happens *before* any guard, so a slice that
fails to parse raises `ValueError`); if `scale_factor < 0` or the stripped
string does not have length 6, return the stripped string unchanged;
otherwise scale each channel, clamp to `[0, 255]`, and format as
`"#%02x%02x%02x"`. -/
def colorscale (hexstr : String) (scale_factor : ℚ) : Except PyExn String :=
  match pyIntHex ((stripHash hexstr).toList.take 2),
        pyIntHex (((stripHash hexstr).toList.drop 2).take 2),
        pyIntHex ((stripHash hexstr).toList.drop 4) with
  | some r, some g, some b =>
    if scale_factor < 0 ∨ (stripHash hexstr).toList.length ≠ 6 then .ok (stripHash hexstr)
    else .ok (String.mk ('#' ::
      (pyHex2 (clamp (r * scale_factor) 0 255).toNat ++
       pyHex2 (clamp (g * scale_factor) 0 255).toNat ++
       pyHex2 (clamp (b * scale_factor) 0 255).toNat)))
  | _, _, _ => .error .valueError

/-! ## `src/image_tools/manipulator.py`

Images are abstract: the embedding is parameterised by the image type `Img`
and by the bundle of Pillow primitives the stages delegate to.  Each stage of
`ImageManipulator` only wraps such a primitive in a guard
(`if param != DEFAULT`), and every claim below is about that guard/dispatch
structure, so the theorems hold for *every* interpretation of the
primitives.  The one primitive that can raise in the code paths the claims
exercise is `ImageOps.invert`, modelled as `Option`-valued. -/

/-- The Pillow primitives used by `ImageManipulator` and `sepia_filter`,
abstracted over the image type. -/
structure PILOps (Img : Type) where
  /-- `image.mode` -/
  mode : Img → String
  /-- `image.convert('RGB')` -/
  convertRGB : Img → Img
  /-- `image.rotate(angle=a)` -/
  rotate : Img → ℚ → Img
  /-- `ImageOps.crop(image, border=b)` -/
  crop : Img → ℚ → Img
  /-- `ImageOps.mirror(image)` -/
  mirror : Img → Img
  /-- `ImageOps.flip(image)` -/
  flip : Img → Img
  /-- `ImageEnhance.Brightness(image).enhance(v)` -/
  brightnessEnhance : Img → ℚ → Img
  /-- `ImageEnhance.Color(image).enhance(v)` -/
  colorEnhance : Img → ℚ → Img
  /-- `ImageOps.grayscale(image)` -/
  grayscale : Img → Img
  /-- `ImageOps.invert(image)`; `none` models the exception Pillow raises on
  pixel formats that do not support inversion. -/
  invert : Img → Option Img
  /-- `image.convert("L")` -/
  convertL : Img → Img
  /-- `image.putpalette(p)` followed by reading the image back (the palette
  attachment of `sepia_filter`) -/
  putpalette : Img → List ℕ → Img
  /-- `image.convert("P", palette=Image.ADAPTIVE, colors=4)` -/
  convertP4 : Img → Img
  /-- `image.filter(ImageFilter.GaussianBlur(v))` -/
  gaussianBlur : Img → ℚ → Img
  /-- `image.filter(ImageFilter.UnsharpMask(v))` -/
  unsharpMask : Img → ℤ → Img
  /-- `image.filter(k)` for one of the fixed kernels `EMBOSS`,
  `FIND_EDGES`, `CONTOUR`, `EDGE_ENHANCE` (named by the dispatch string) -/
  kernelFilter : Img → String → Img
  /-- Modelled from the spec: the hue-rotation primitive required by the
  `change_hue` stage, whose implementation is absent from
  `src/image_tools/manipulator.py` (spec §4.2 stage 13 leaves the exact
  mapping open). -/
  hueRotate : Img → ℤ → Img

/-- Defaults from `src/settings.py` lines 7–21. -/
def ROTATE_DEFAULT : ℚ := 0

/-- `ZOOM_DEFAULT = 0` (`src/settings.py` line 8). -/
def ZOOM_DEFAULT : ℚ := 0

/-- `BLUR_DEFAULT = 0` (`src/settings.py` line 10). -/
def BLUR_DEFAULT : ℚ := 0

/-- `CONTRAST_DEFAULT = 0` (`src/settings.py` line 11). -/
def CONTRAST_DEFAULT : ℤ := 0

/-- `BALANCE_DEFAULT = 0` (`src/settings.py` line 12). -/
def BALANCE_DEFAULT : ℤ := 0

/-- `BRIGHTNESS_DEFAULT = 1` (`src/settings.py` line 15). -/
def BRIGHTNESS_DEFAULT : ℚ := 1

/-- `VIBRANCE_DEFAULT = 1` (`src/settings.py` line 16). -/
def VIBRANCE_DEFAULT : ℚ := 1

/-- `HUE_DEFAULT = 0` (`src/settings.py` line 17). -/
def HUE_DEFAULT : ℤ := 0

/-- `FLIP_OPTIONS = ['None', 'X', 'Y', 'Both']` (`src/settings.py` line 9);
the first entry is the default. -/
def FLIP_OPTIONS : List String := ["None", "X", "Y", "Both"]

/-- `EFFECT_OPTIONS` (`src/settings.py` line 13); the first entry is the
default. -/
def EFFECT_OPTIONS : List String := ["None", "Emboss", "Find edges", "Contour", "Edge enhance"]

/-- `sepia_palette()` from `src/image_tools/manipulator.py` lines 8–24: for
each `i` in `range(255)` the loop extends the flat palette list with
`(255*i//255, 240*i//255, 192*i//255)`, the three channels of base color
`(255, 240, 192)` scaled by `i/255`. -/
def sepia_palette : List ℕ :=
  (List.range 255).flatMap fun i => [255 * i / 255, 240 * i / 255, 192 * i / 255]

/-- The manipulator state: the single `used_image` attribute of
`ImageManipulator`. -/
structure Manip (Img : Type) where
  used_image : Img
deriving DecidableEq

namespace ImageManipulator

variable {Img : Type}

/-- `sepia_filter(image)` from `src/image_tools/manipulator.py` lines 26–40:
convert to grayscale `"L"`, attach `sepia_palette()`, convert back to
`"RGB"`. -/
def sepia_filter (ops : PILOps Img) (image : Img) : Img :=
  ops.convertRGB (ops.putpalette (ops.convertL image) sepia_palette)

/-- `ImageManipulator.__init__` (lines 47–50): store the image; if its mode
is `'P'` (palette-indexed), convert it to RGB immediately. -/
def init (ops : PILOps Img) (image_file : Img) : Manip Img :=
  if ops.mode image_file = "P" then ⟨ops.convertRGB image_file⟩ else ⟨image_file⟩

/-- `rotate_image` (lines 53–61): skip when the angle equals
`ROTATE_DEFAULT`. -/
def rotate_image (ops : PILOps Img) (m : Manip Img) (rotation_angle : ℚ) : Manip Img :=
  if rotation_angle ≠ ROTATE_DEFAULT then ⟨ops.rotate m.used_image rotation_angle⟩ else m

/-- `zoom_image` (lines 63–71): skip when the amount equals `ZOOM_DEFAULT`. -/
def zoom_image (ops : PILOps Img) (m : Manip Img) (zoom_amount : ℚ) : Manip Img :=
  if zoom_amount ≠ ZOOM_DEFAULT then ⟨ops.crop m.used_image zoom_amount⟩ else m

/-- `flip_image` (lines 73–87): skip at `'None'`; mirror for `'X'`/`'Both'`,
flip for `'Y'`/`'Both'`. -/
def flip_image (ops : PILOps Img) (m : Manip Img) (flip_option : String) : Manip Img :=
  if flip_option ≠ "None" then
    let afterMirror : Img :=
      if flip_option = "X" ∨ flip_option = "Both" then ops.mirror m.used_image
      else m.used_image
    if flip_option = "Y" ∨ flip_option = "Both" then ⟨ops.flip afterMirror⟩
    else ⟨afterMirror⟩
  else m

/-- `apply_brightness` (lines 89–99): skip at `BRIGHTNESS_DEFAULT`. -/
def apply_brightness (ops : PILOps Img) (m : Manip Img) (brightness_value : ℚ) : Manip Img :=
  if brightness_value ≠ BRIGHTNESS_DEFAULT then
    ⟨ops.brightnessEnhance m.used_image brightness_value⟩
  else m

/-- `apply_vibrance` (lines 101–111): skip at `VIBRANCE_DEFAULT`; uses the
`ImageEnhance.Color` enhancer. -/
def apply_vibrance (ops : PILOps Img) (m : Manip Img) (vibrance_value : ℚ) : Manip Img :=
  if vibrance_value ≠ VIBRANCE_DEFAULT then
    ⟨ops.colorEnhance m.used_image vibrance_value⟩
  else m

/-- `apply_grayscale` (lines 113–121): skip when the flag is false. -/
def apply_grayscale (ops : PILOps Img) (m : Manip Img) (grayscale_flag : Bool) : Manip Img :=
  if grayscale_flag then ⟨ops.grayscale m.used_image⟩ else m

/-- `invert_colors` (lines 123–134): when the flag is set, attempt
`ImageOps.invert`; the bare `except` turns *any* failure into `raise
OSError`, leaving `used_image` unassigned. -/
def invert_colors (ops : PILOps Img) (m : Manip Img) (invert_flag : Bool) :
    Except PyExn (Manip Img) :=
  if invert_flag then
    match ops.invert m.used_image with
    | some img => .ok ⟨img⟩
    | none => .error .osError
  else .ok m

/-- `apply_sepia` (lines 136–144): skip when the flag is false. -/
def apply_sepia (ops : PILOps Img) (m : Manip Img) (sepia_flag : Bool) : Manip Img :=
  if sepia_flag then ⟨sepia_filter ops m.used_image⟩ else m

/-- `apply_4color_filter` (lines 146–155): skip when the flag is false. -/
def apply_4color_filter (ops : PILOps Img) (m : Manip Img) (four_col_flag : Bool) : Manip Img :=
  if four_col_flag then ⟨ops.convertP4 m.used_image⟩ else m

/-- `blur_image` (lines 157–166): skip at `BLUR_DEFAULT`. -/
def blur_image (ops : PILOps Img) (m : Manip Img) (blur_value : ℚ) : Manip Img :=
  if blur_value ≠ BLUR_DEFAULT then ⟨ops.gaussianBlur m.used_image blur_value⟩ else m

/-- `change_contrast` (lines 168–177): skip at `CONTRAST_DEFAULT`. -/
def change_contrast (ops : PILOps Img) (m : Manip Img) (contrast_value : ℤ) : Manip Img :=
  if contrast_value ≠ CONTRAST_DEFAULT then ⟨ops.unsharpMask m.used_image contrast_value⟩ else m

/-- `change_balance` (lines 179–188): skip at `BALANCE_DEFAULT`; uses the
same `ImageEnhance.Color` enhancer as `apply_vibrance`. -/
def change_balance (ops : PILOps Img) (m : Manip Img) (balance_value : ℤ) : Manip Img :=
  if balance_value ≠ BALANCE_DEFAULT then
    ⟨ops.colorEnhance m.used_image (balance_value : ℚ)⟩
  else m

/-- Modelled from the spec: `ImageManipulator.change_hue` is called at
`src/main.py` line 143 but no such method is defined in
`src/image_tools/manipulator.py`; spec §4.2 stage 13 specifies it as the
identity at shift `0`, otherwise a rotation of the hue angle by the shift
(exact mapping left open, abstracted as the `hueRotate` primitive).  The
guard mirrors the `if value != DEFAULT` shape of every other stage. -/
def change_hue (ops : PILOps Img) (m : Manip Img) (hue_shift : ℤ) : Manip Img :=
  if hue_shift ≠ HUE_DEFAULT then ⟨ops.hueRotate m.used_image hue_shift⟩ else m

/-- `apply_effect` (lines 190–210): `match effect_name` over the four
recognised names sets `applied_effect`; it stays `None` for every other
string (including `'None'`), in which case no filter is applied. -/
def apply_effect (ops : PILOps Img) (m : Manip Img) (effect_name : String) : Manip Img :=
  if effect_name = "Emboss" ∨ effect_name = "Find edges" ∨
      effect_name = "Contour" ∨ effect_name = "Edge enhance" then
    ⟨ops.kernelFilter m.used_image effect_name⟩
  else m

/-- `image_result` (lines 212–220). -/
def image_result (m : Manip Img) : Img := m.used_image

end ImageManipulator

/-! ## `src/main.py` — the pipeline driver -/

/-- The parameter set: one value per pipeline stage, as held by the
`position_vars` / `color_vars` / `effect_vars` tkinter variables of
`App.init_parameters` (`src/main.py` lines 47–83). -/
structure Params where
  rotate : ℚ
  zoom : ℚ
  flip : String
  brightness : ℚ
  vibrance : ℚ
  grayscale : Bool
  sepia : Bool
  invert : Bool
  fourColor : Bool
  blur : ℚ
  contrast : ℤ
  balance : ℤ
  hue : ℤ
  effect : String
deriving DecidableEq

/-- The defaults the variables are initialised with (`src/main.py` lines
51–74, values from `src/settings.py`). -/
def defaultParams : Params :=
  { rotate := ROTATE_DEFAULT
    zoom := ZOOM_DEFAULT
    flip := "None"
    brightness := BRIGHTNESS_DEFAULT
    vibrance := VIBRANCE_DEFAULT
    grayscale := false
    sepia := false
    invert := false
    fourColor := false
    blur := BLUR_DEFAULT
    contrast := CONTRAST_DEFAULT
    balance := BALANCE_DEFAULT
    hue := HUE_DEFAULT
    effect := "None" }

/-- The pipeline-relevant application state: `self.original` (set once by
`App.import_image`) and `self.image` (the working image). -/
structure AppState (Img : Type) where
  original : Img
  image : Img
deriving DecidableEq

open ImageManipulator in
/-- The pipeline prefix of `App.manipulate_image` up to and including
`apply_grayscale` (`src/main.py` lines 113–126): reset the working image to
the original, construct the manipulator from it, and run the first six
stages. -/
def pipelineThroughGrayscale {Img : Type} (ops : PILOps Img) (original : Img) (p : Params) :
    Manip Img :=
  apply_grayscale ops
    (apply_vibrance ops
      (apply_brightness ops
        (flip_image ops
          (zoom_image ops
            (rotate_image ops (init ops original) p.rotate)
            p.zoom)
          p.flip)
        p.brightness)
      p.vibrance)
    p.grayscale

open ImageManipulator in
/-- `App.manipulate_image` (`src/main.py` lines 112–149): reset the working
image to the original, run every stage in order, and store the result.  The
`try/except OSError` around `invert_colors` (lines 128–131) catches the
stage's failure, pops the error dialog (returned here as the `Bool`
component), and *continues* with the remaining stages on the un-inverted
manipulator state.  The `change_hue` stage is the spec-modelled method (see
`ImageManipulator.change_hue`). -/
def App.manipulate_image {Img : Type} (ops : PILOps Img) (st : AppState Img) (p : Params) :
    AppState Img × Bool :=
  let m0 := init ops st.original
  let m1 := rotate_image ops m0 p.rotate
  let m2 := zoom_image ops m1 p.zoom
  let m3 := flip_image ops m2 p.flip
  let m4 := apply_brightness ops m3 p.brightness
  let m5 := apply_vibrance ops m4 p.vibrance
  let m6 := apply_grayscale ops m5 p.grayscale
  let inv := invert_colors ops m6 p.invert
  let m7 := match inv with
    | .ok m' => m'
    | .error _ => m6
  let errorShown := match inv with
    | .ok _ => false
    | .error _ => true
  let m8 := apply_sepia ops m7 p.sepia
  let m9 := apply_4color_filter ops m8 p.fourColor
  let m10 := blur_image ops m9 p.blur
  let m11 := change_contrast ops m10 p.contrast
  let m12 := change_balance ops m11 p.balance
  let m13 := change_hue ops m12 p.hue
  let m14 := apply_effect ops m13 p.effect
  ({ original := st.original, image := image_result m14 }, errorShown)

/-! ## `src/main.py` — thumbnail export over a heap of image objects

`App.save_thumbnail` (lines 223–238) runs `copy = self.image`, which in
Python merely *aliases* the object, and `Image.thumbnail` mutates the image
it is called on in place.  To reason about mutation the relevant slice of
the app is embedded against an explicit heap: image objects live at indices
of a list, and `original` / `image` are references into it. -/

/-- A Pillow image object for the aliasing model: its mode and dimensions
(the parts `save_thumbnail` reads and writes) plus abstract pixel content. -/
structure PImage where
  mode : String
  width : ℕ
  height : ℕ
  pix : ℕ
deriving DecidableEq

/-- App state with explicit object identity: a heap of image objects and the
two references `self.original` and `self.image`. -/
structure HeapState where
  heap : List PImage
  original : ℕ
  image : ℕ
deriving DecidableEq

/-- `App.import_image` (`src/main.py` lines 86–110), the pipeline-relevant
part: `self.original = Image.open(path)` allocates one image object and
`self.image = self.original` makes the working reference an *alias* of it. -/
def App.import_image (img : PImage) : HeapState :=
  { heap := [img], original := 0, image := 0 }

/-- `App.save_thumbnail` (`src/main.py` lines 223–238) against the heap
model, parameterised by `thumb`, the in-place `Image.thumbnail(size)`
resize (its exact arithmetic lives in Pillow, outside this repository):
`copy = self.image` aliases the working image; only when its mode is `'P'`
does `copy.convert('RGB')` allocate a fresh object; then `copy.thumbnail(size)`
mutates the object `copy` refers to in place.  `copy.save(...)` does not
change any image.  Returns the new state. -/
def App.save_thumbnail (thumb : PImage → ℕ × ℕ → PImage)
    (st : HeapState) (size : ℕ × ℕ) : HeapState :=
  let copy := st.image
  let (heap, copy) :=
    if (st.heap.getD copy ⟨"", 0, 0, 0⟩).mode = "P" then
      (st.heap ++ [{ st.heap.getD copy ⟨"", 0, 0, 0⟩ with mode := "RGB" }], st.heap.length)
    else (st.heap, copy)
  let heap := heap.set copy (thumb (heap.getD copy ⟨"", 0, 0, 0⟩) size)
  { st with heap := heap }

/-! ## `src/panel.py` — palette extraction post-processing -/

/-- One color as returned by the external `colorgram.extract` call: an RGB
triple and its proportion of the image's pixels. -/
structure ExtractedColor where
  r : ℕ
  g : ℕ
  b : ℕ
  proportion : ℚ
deriving DecidableEq

/-- The post-processing of `ColorsPanel.generate_palette`
(`src/panel.py` lines 303–310) applied to the list of colors the extraction
library returned: `sorted(colors, key=lambda color: color.proportion)[:14]`
(Python `sorted` is a stable ascending sort, embedded as the stable
`insertionSort` on the same key, and `[:14]` keeps the *first* fourteen of
the ascending order), then each color is hex-encoded with `rgb_to_hex`. -/
def generate_palette (colors : List ExtractedColor) : List String :=
  (((colors.insertionSort fun a b => a.proportion ≤ b.proportion).take 14).map
    fun c => rgb_to_hex c.r c.g c.b)

/-! ## A concrete interpretation of the Pillow primitives

Used to evaluate the pipeline at concrete inputs: images are natural
numbers, and each primitive adds a different offset so that distinct
operation sequences produce distinct images.  `invert` always fails,
matching a pixel format that does not support inversion. -/

/-- Concrete `PILOps` over `ℕ` for witnesses and counterexamples. -/
def testOps : PILOps ℕ where
  mode := fun _ => "RGB"
  convertRGB := fun i => i + 1
  rotate := fun i _ => i + 2
  crop := fun i _ => i + 3
  mirror := fun i => i + 4
  flip := fun i => i + 5
  brightnessEnhance := fun i _ => i + 6
  colorEnhance := fun i _ => i + 7
  grayscale := fun i => i + 8
  invert := fun _ => none
  convertL := fun i => i + 9
  putpalette := fun i _ => i + 10
  convertP4 := fun i => i + 11
  gaussianBlur := fun i _ => i + 12
  unsharpMask := fun i _ => i + 13
  kernelFilter := fun i _ => i + 14
  hueRotate := fun i _ => i + 15

/-- A stable-in-place-resize stand-in for Pillow's `Image.thumbnail` at the
concrete failing input of the thumbnail-export claim: an 8×6 RGB image
shrunk to the 4×3 bounding box keeps its pixels' content tag but changes its
dimensions, exactly as Pillow's in-place resize does. -/
def shrinkToBox : PImage → ℕ × ℕ → PImage :=
  fun img size => { img with width := size.1, height := size.2 }

/-- A concrete extraction result with 15 colors of pairwise-distinct
proportions, ascending from `1` (rarest, color `(1,1,1)`) to `15` (most
frequent, color `(15,15,15)`). -/
def paletteInput : List ExtractedColor :=
  [⟨1, 1, 1, 1⟩, ⟨2, 2, 2, 2⟩, ⟨3, 3, 3, 3⟩, ⟨4, 4, 4, 4⟩, ⟨5, 5, 5, 5⟩,
   ⟨6, 6, 6, 6⟩, ⟨7, 7, 7, 7⟩, ⟨8, 8, 8, 8⟩, ⟨9, 9, 9, 9⟩, ⟨10, 10, 10, 10⟩,
   ⟨11, 11, 11, 11⟩, ⟨12, 12, 12, 12⟩, ⟨13, 13, 13, 13⟩, ⟨14, 14, 14, 14⟩,
   ⟨15, 15, 15, 15⟩]

end AStar

namespace AStar

open ImageManipulator

/-! ## Theorems -/

/-- C1: the pipeline contains a Hue stage: the Manipulator's hue operation
(the spec-modelled `change_hue`, invoked by `App.manipulate_image` between
`change_balance` and `apply_effect`) is the identity at shift `0` and
otherwise rotates the hue angle by the shift; recomputing the pipeline with
every parameter at its default (hue at `0`) succeeds, reporting no error,
and leaves the image unchanged. -/
theorem C1_hue_stage {Img : Type} (ops : PILOps Img) (st : AppState Img)
    (m : Manip Img) (s : ℤ) (hs : s ≠ 0) (hmode : ops.mode st.original ≠ "P") :
    change_hue ops m HUE_DEFAULT = m ∧
    change_hue ops m s = ⟨ops.hueRotate m.used_image s⟩ ∧
    App.manipulate_image ops st defaultParams = (⟨st.original, st.original⟩, false) := by
  refine ⟨by simp [change_hue], by simp [change_hue, HUE_DEFAULT, hs], ?_⟩
  simp [App.manipulate_image, defaultParams, init, hmode,
    rotate_image, ROTATE_DEFAULT, zoom_image, ZOOM_DEFAULT, flip_image,
    apply_brightness, BRIGHTNESS_DEFAULT, apply_vibrance, VIBRANCE_DEFAULT,
    apply_grayscale, invert_colors, apply_sepia, apply_4color_filter,
    blur_image, BLUR_DEFAULT, change_contrast, CONTRAST_DEFAULT,
    change_balance, BALANCE_DEFAULT, change_hue, HUE_DEFAULT,
    apply_effect, image_result]

/-- Witness for C1 at a concrete interpretation: shift `30`, a non-palette
image. -/
theorem C1_hue_stage_witness :
    ((30 : ℤ) ≠ 0 ∧ testOps.mode 0 ≠ "P") ∧
    (change_hue testOps ⟨5⟩ HUE_DEFAULT = ⟨5⟩ ∧
      change_hue testOps ⟨5⟩ 30 = ⟨testOps.hueRotate 5 30⟩ ∧
      App.manipulate_image testOps ⟨0, 0⟩ defaultParams = (⟨0, 0⟩, false)) :=
  ⟨⟨by decide, by decide⟩, C1_hue_stage testOps ⟨0, 0⟩ ⟨5⟩ 30 (by decide) (by decide)⟩

/-- C2: every stage of the pipeline applied with its documented default
parameter (rotate 0, zoom 0, flip `'None'`, brightness 1, vibrance 1,
grayscale/invert/sepia/4-color false, blur 0, contrast 0, balance 0, hue 0,
effect `'None'`) leaves the manipulator state unchanged, for every image and
every interpretation of the Pillow primitives (the guard of each stage skips
the primitive at the default; the failed `invert` guard returns the state
unchanged wrapped in `Except.ok`). -/
theorem C2_defaults_are_identity {Img : Type} (ops : PILOps Img) (m : Manip Img) :
    rotate_image ops m ROTATE_DEFAULT = m ∧
    zoom_image ops m ZOOM_DEFAULT = m ∧
    flip_image ops m "None" = m ∧
    apply_brightness ops m BRIGHTNESS_DEFAULT = m ∧
    apply_vibrance ops m VIBRANCE_DEFAULT = m ∧
    apply_grayscale ops m false = m ∧
    invert_colors ops m false = .ok m ∧
    apply_sepia ops m false = m ∧
    apply_4color_filter ops m false = m ∧
    blur_image ops m BLUR_DEFAULT = m ∧
    change_contrast ops m CONTRAST_DEFAULT = m ∧
    change_balance ops m BALANCE_DEFAULT = m ∧
    change_hue ops m HUE_DEFAULT = m ∧
    apply_effect ops m "None" = m := by
  refine ⟨?_, ?_, ?_, ?_, ?_, ?_, ?_, ?_, ?_, ?_, ?_, ?_, ?_, ?_⟩ <;>
    simp [rotate_image, zoom_image, flip_image, apply_brightness, apply_vibrance,
      apply_grayscale, invert_colors, apply_sepia, apply_4color_filter, blur_image,
      change_contrast, change_balance, change_hue, apply_effect]

/-- C3: recomputation is non-cumulative: recomputing after a parameter
change `A` and then after `B` gives exactly the state of recomputing once
from the original with the final parameter set `B`; the working image is a
function of `(original, parameters)` only (never of the previous working
image); and recomputation never changes the original. -/
theorem C3_noncumulative {Img : Type} (ops : PILOps Img) (st : AppState Img) (A B : Params) :
    App.manipulate_image ops (App.manipulate_image ops st A).1 B =
      App.manipulate_image ops st B ∧
    (∀ (o i i' : Img) (p : Params),
      App.manipulate_image ops ⟨o, i⟩ p = App.manipulate_image ops ⟨o, i'⟩ p) ∧
    (App.manipulate_image ops st A).1.original = st.original := by
  exact ⟨rfl, fun o i i' p => rfl, rfl⟩

/-- C10: the artistic-effect dispatch is total: for every effect-name string
other than the four recognised kernel names — in particular `'None'` and any
unrecognised string — `apply_effect` leaves the manipulator state unchanged
instead of raising. -/
theorem C10_effect_dispatch_total {Img : Type} (ops : PILOps Img) (m : Manip Img)
    (name : String)
    (h : name ∉ (["Emboss", "Find edges", "Contour", "Edge enhance"] : List String)) :
    apply_effect ops m name = m ∧ apply_effect ops m "None" = m := by
  constructor
  · have h' : ¬(name = "Emboss" ∨ name = "Find edges" ∨
        name = "Contour" ∨ name = "Edge enhance") := by
      simpa using h
    simp [apply_effect, h']
  · simp [apply_effect]

/-- Witness for C10 at the concrete unrecognised name `'Solarize'`. -/
theorem C10_effect_dispatch_total_witness :
    ("Solarize" : String) ∉ (["Emboss", "Find edges", "Contour", "Edge enhance"] : List String) ∧
    (apply_effect testOps ⟨3⟩ "Solarize" = ⟨3⟩ ∧ apply_effect testOps ⟨3⟩ "None" = ⟨3⟩) :=
  ⟨by decide, C10_effect_dispatch_total testOps ⟨3⟩ "Solarize" (by decide)⟩

/-- C4 (refuting the claim at a concrete input): the original image *is*
mutated by thumbnail export.  Import an 8×6 RGB image (its object sits at
the reference `original` points to); `save_thumbnail` with box `(4, 3)` does
`copy = self.image` — an alias, not a copy, and right after import
`self.image` is `self.original` — then `copy.thumbnail(size)` resizes that
very object in place: afterwards the object at the `original` reference is
4×3, no longer the as-imported 8×6 image. -/
theorem C4_thumbnail_mutates_original :
    (App.import_image ⟨"RGB", 8, 6, 77⟩).image = (App.import_image ⟨"RGB", 8, 6, 77⟩).original ∧
    (App.import_image ⟨"RGB", 8, 6, 77⟩).heap.getD (App.import_image ⟨"RGB", 8, 6, 77⟩).original
      ⟨"", 0, 0, 0⟩ = ⟨"RGB", 8, 6, 77⟩ ∧
    (App.save_thumbnail shrinkToBox (App.import_image ⟨"RGB", 8, 6, 77⟩) (4, 3)).original =
      (App.import_image ⟨"RGB", 8, 6, 77⟩).original ∧
    (App.save_thumbnail shrinkToBox (App.import_image ⟨"RGB", 8, 6, 77⟩) (4, 3)).heap.getD
      (App.import_image ⟨"RGB", 8, 6, 77⟩).original ⟨"", 0, 0, 0⟩ = ⟨"RGB", 4, 3, 77⟩ ∧
    (⟨"RGB", 4, 3, 77⟩ : PImage) ≠ ⟨"RGB", 8, 6, 77⟩ := by
  decide

/-- C5 (refuting the claim at its own concrete input): on a negative factor
`colorscale` returns the `'#'`-stripped input *case-preserved*, so
`colorscale("ABC123", -1)` is `"ABC123"`, not the `"abc123"` the claim
demands. -/
theorem C5_counterexample :
    colorscale "ABC123" (-1) = .ok "ABC123" ∧ ("ABC123" : String) ≠ "abc123" := by
  constructor
  · have h1 : pyIntHex (("ABC123" : String).toList.take 2) = some 171 := rfl
    have h2 : pyIntHex ((("ABC123" : String).toList.drop 2).take 2) = some 193 := rfl
    have h3 : pyIntHex (("ABC123" : String).toList.drop 4) = some 35 := rfl
    have hs : stripHash "ABC123" = "ABC123" := rfl
    simp only [colorscale, hs, h1, h2, h3]
    norm_num
  · decide

/-- C5 amended: when the three hex slices of the `'#'`-stripped input all
parse, and the factor is negative or the stripped input does not have
exactly 6 characters, `colorscale` returns the *stripped* input unchanged
(case preserved) instead of failing.  (When a slice does not parse the
function raises `ValueError` instead — parsing happens before the guard.) -/
theorem C5_guard_passthrough (s : String) (f : ℚ)
    (hr : (pyIntHex ((stripHash s).toList.take 2)).isSome = true)
    (hg : (pyIntHex (((stripHash s).toList.drop 2).take 2)).isSome = true)
    (hb : (pyIntHex ((stripHash s).toList.drop 4)).isSome = true)
    (hc : f < 0 ∨ (stripHash s).toList.length ≠ 6) :
    colorscale s f = .ok (stripHash s) := by
  obtain ⟨r, hr'⟩ := Option.isSome_iff_exists.mp hr
  obtain ⟨g, hg'⟩ := Option.isSome_iff_exists.mp hg
  obtain ⟨b, hb'⟩ := Option.isSome_iff_exists.mp hb
  simp only [colorscale, hr', hg', hb', if_pos hc]

/-- Witness for C5 at the spec's own example color `#DF3C3C` with factor
`-1`: the parse hypotheses hold and the stripped string passes through. -/
theorem C5_guard_passthrough_witness :
    ((pyIntHex ((stripHash "#DF3C3C").toList.take 2)).isSome = true ∧
     (pyIntHex (((stripHash "#DF3C3C").toList.drop 2).take 2)).isSome = true ∧
     (pyIntHex ((stripHash "#DF3C3C").toList.drop 4)).isSome = true ∧
     ((-1 : ℚ) < 0 ∨ (stripHash "#DF3C3C").toList.length ≠ 6)) ∧
    colorscale "#DF3C3C" (-1) = .ok "DF3C3C" :=
  ⟨⟨by decide, by decide, by decide, Or.inl (by decide)⟩,
   C5_guard_passthrough "#DF3C3C" (-1) (by decide) (by decide) (by decide)
     (Or.inl (by decide))⟩

/-- C6 (refuting the claim at a concrete input): with invert requested on an
image whose format does not support it *and* sepia also requested, the
recomputation does **not** abort at the failing stage and the displayed
image does **not** stay unchanged: the error dialog is shown (flag `true`),
yet the sepia stage still runs on the un-inverted image and the working
image becomes the sepia output (`20`), different from the previous working
image (`0`). -/
theorem C6_counterexample :
    App.manipulate_image testOps ⟨0, 0⟩
        { defaultParams with invert := true, sepia := true } = (⟨0, 20⟩, true) ∧
    sepia_filter testOps 0 = 20 ∧ (20 : ℕ) ≠ 0 := by
  decide

/-- C6 amended: when invert is requested and the pixel format does not
support it, `invert_colors` raises the distinguishable, recoverable
`OSError` and leaves the manipulator state unassigned; `manipulate_image`
catches it, reports the error dialog (flag `true`), and *continues* the pass
with the remaining stages on the un-inverted image — the final state is
exactly that of the same recomputation with invert off. -/
theorem C6_invert_failure_reported_and_pass_continues {Img : Type} (ops : PILOps Img)
    (st : AppState Img) (p : Params) (hinv : p.invert = true)
    (hfail : ops.invert (pipelineThroughGrayscale ops st.original p).used_image = none) :
    invert_colors ops (pipelineThroughGrayscale ops st.original p) p.invert =
      .error .osError ∧
    App.manipulate_image ops st p =
      ((App.manipulate_image ops st { p with invert := false }).1, true) := by
  constructor
  · rw [hinv, invert_colors, if_pos rfl, hfail]
  · have hfail' := hfail
    simp only [pipelineThroughGrayscale] at hfail'
    simp only [App.manipulate_image, hinv, invert_colors, hfail', Bool.false_eq_true,
      if_true, if_false]

/-- Witness for C6 amended, at the concrete always-failing interpretation
with all other parameters at their defaults. -/
theorem C6_invert_failure_witness :
    (({ defaultParams with invert := true } : Params).invert = true ∧
     testOps.invert (pipelineThroughGrayscale testOps 0
       { defaultParams with invert := true }).used_image = none) ∧
    (invert_colors testOps (pipelineThroughGrayscale testOps 0
        { defaultParams with invert := true })
        ({ defaultParams with invert := true } : Params).invert = .error .osError ∧
     App.manipulate_image testOps ⟨0, 0⟩ { defaultParams with invert := true } =
      ((App.manipulate_image testOps ⟨0, 0⟩
        { ({ defaultParams with invert := true } : Params) with invert := false }).1, true)) :=
  ⟨⟨by decide, by decide⟩,
   C6_invert_failure_reported_and_pass_continues testOps ⟨0, 0⟩
     { defaultParams with invert := true } (by decide) (by decide)⟩

/-- C7 (the code against its own docstring, at a concrete input): on an
extraction with 15 colors of ascending proportions 1..15,
`generate_palette` — `sorted(colors, key=proportion)[:14]` — keeps the
hexes of the 14 colors of *smallest* proportion, in ascending order, and
the most frequent color `(15,15,15)` (proportion 15, the maximum of the
input, whose hex is `#0f0f0f`) is missing from the result, contrary to the
claimed "14 most frequent". -/
theorem C7_palette_drops_most_frequent :
    generate_palette paletteInput =
      [rgb_to_hex 1 1 1, rgb_to_hex 2 2 2, rgb_to_hex 3 3 3, rgb_to_hex 4 4 4,
       rgb_to_hex 5 5 5, rgb_to_hex 6 6 6, rgb_to_hex 7 7 7, rgb_to_hex 8 8 8,
       rgb_to_hex 9 9 9, rgb_to_hex 10 10 10, rgb_to_hex 11 11 11, rgb_to_hex 12 12 12,
       rgb_to_hex 13 13 13, rgb_to_hex 14 14 14] ∧
    (⟨15, 15, 15, 15⟩ : ExtractedColor) ∈ paletteInput ∧
    (∀ c ∈ paletteInput, c.proportion ≤ 15) ∧
    rgb_to_hex 15 15 15 ∉ generate_palette paletteInput := by
  refine ⟨by decide, by decide, ?_, by decide⟩
  decide

/-- The flat palette produced by iterating `range n` over three-value
chunks, dropped to the start of chunk `i`: the chunk for `i` followed by the
chunks for the remaining indices. -/
theorem flatMap_chunk3_drop (F : ℕ → List ℕ) (hF : ∀ j, (F j).length = 3) :
    ∀ (n s i : ℕ), i < n →
      ((List.range' s n).flatMap F).drop (3 * i) =
        F (s + i) ++ (List.range' (s + i + 1) (n - i - 1)).flatMap F := by
  intro n
  induction n with
  | zero => intro s i h; exact absurd h (Nat.not_lt_zero i)
  | succ n ih =>
    intro s i h
    rw [List.range'_succ, List.flatMap_cons]
    cases i with
    | zero => simp
    | succ i =>
      have h3 : 3 * (i + 1) = (F s).length + 3 * i := by rw [hF s]; ring
      rw [h3, List.drop_append, ih (s + 1) i (Nat.lt_of_succ_lt_succ h)]
      have e1 : s + 1 + i = s + (i + 1) := by omega
      have e2 : n - i - 1 = n + 1 - (i + 1) - 1 := by omega
      rw [e1, e2]

set_option maxRecDepth 4000 in
/-- C8 amended: `sepia_palette` has `3 * 255` values — 255 palette entries,
indices 0 through 254, not 256 — and for each `i < 255` entry `i` is the
triple `(255*i/255, 240*i/255, 192*i/255)` anchored at base color
`(255, 240, 192)`; `apply_sepia` with the flag set remaps the working image
through it (grayscale `"L"` conversion, palette attachment, expansion back
to `"RGB"`), and is the identity when the flag is false. -/
theorem C8_sepia_palette_255_entries {Img : Type} (ops : PILOps Img) (m : Manip Img)
    (i : ℕ) (hi : i < 255) :
    sepia_palette.length = 3 * 255 ∧
    (sepia_palette.drop (3 * i)).take 3 = [255 * i / 255, 240 * i / 255, 192 * i / 255] ∧
    apply_sepia ops m true =
      ⟨ops.convertRGB (ops.putpalette (ops.convertL m.used_image) sepia_palette)⟩ ∧
    apply_sepia ops m false = m := by
  refine ⟨by decide, ?_, by simp [apply_sepia, sepia_filter], by simp [apply_sepia]⟩
  rw [sepia_palette, List.range_eq_range',
    flatMap_chunk3_drop (fun i => [255 * i / 255, 240 * i / 255, 192 * i / 255])
      (fun j => rfl) 255 0 i hi, Nat.zero_add]
  rfl

/-- Witness for C8 at palette index 7. -/
theorem C8_sepia_palette_witness :
    7 < 255 ∧
    (sepia_palette.length = 3 * 255 ∧
     (sepia_palette.drop (3 * 7)).take 3 = [255 * 7 / 255, 240 * 7 / 255, 192 * 7 / 255] ∧
     apply_sepia testOps ⟨5⟩ true =
       ⟨testOps.convertRGB (testOps.putpalette (testOps.convertL 5) sepia_palette)⟩ ∧
     apply_sepia testOps ⟨5⟩ false = ⟨5⟩) :=
  ⟨by decide, C8_sepia_palette_255_entries testOps ⟨5⟩ 7 (by decide)⟩

set_option maxRecDepth 4000 in
/-- C8 (refuting the claim at a concrete index): the palette list holds 765
values — 255 entries — so there is no entry at index 255: the claimed
256-entry palette with entry `i = (255*i//255, 240*i//255, 192*i//255)`
would hold `(255, 240, 192)` there, but dropping 255 three-value chunks
exhausts the list. -/
theorem C8_counterexample :
    sepia_palette.length = 765 ∧ (765 : ℕ) ≠ 256 * 3 ∧
    sepia_palette.drop (3 * 255) = [] := by
  refine ⟨by decide, by decide, by decide⟩

/-- Python `int()` truncation is monotone-bounded above: a value at most an
integer truncates to at most that integer. -/
theorem pytrunc_le_of_le {q : ℚ} {n : ℤ} (h : q ≤ (n : ℚ)) : pytrunc q ≤ n := by
  rw [pytrunc]
  split
  · exact Int.ceil_le.mpr h
  · have := (Int.floor_le q).trans h
    exact_mod_cast this

/-- Python `int()` truncation is monotone-bounded below: a value at least an
integer truncates to at least that integer. -/
theorem le_pytrunc_of_le {q : ℚ} {n : ℤ} (h : (n : ℚ) ≤ q) : n ≤ pytrunc q := by
  rw [pytrunc]
  split
  · have := h.trans (Int.le_ceil q)
    exact_mod_cast this
  · exact Int.le_floor.mpr h

/-- C9: for integer bounds `lo ≤ hi`, `clamp` equals truncation toward zero
followed by bounding to `[lo, hi]`; in particular `clamp(-5) = 0`,
`clamp(300) = 255` and `clamp(12.9) = 12` at the default bounds `[0, 255]`. -/
theorem C9_clamp_truncates_then_bounds (v : ℚ) (lo hi : ℤ) (h : lo ≤ hi) :
    clamp v lo hi = max lo (min hi (pytrunc v)) ∧
    clamp (-5) 0 255 = 0 ∧ clamp 300 0 255 = 255 ∧ clamp (12.9 : ℚ) 0 255 = 12 := by
  refine ⟨?_, by norm_num [clamp, pytrunc], by norm_num [clamp, pytrunc],
    by norm_num [clamp, pytrunc]⟩
  rw [clamp]
  split
  · next hv =>
    have ht : pytrunc v ≤ lo := pytrunc_le_of_le hv.le
    exact (max_eq_left ((min_le_right hi (pytrunc v)).trans ht)).symm
  · next hv =>
    split
    · next hv2 =>
      have ht : hi ≤ pytrunc v := le_pytrunc_of_le hv2.le
      rw [min_eq_left ht, max_eq_right h]
    · next hv2 =>
      push_neg at hv hv2
      have h1 : lo ≤ pytrunc v := le_pytrunc_of_le hv
      have h2 : pytrunc v ≤ hi := pytrunc_le_of_le hv2
      rw [min_eq_right h2, max_eq_right h1]

/-- Witness for C9 at `v = 12.9` with the default bounds. -/
theorem C9_clamp_witness :
    (0 : ℤ) ≤ 255 ∧
    (clamp (12.9 : ℚ) 0 255 = max 0 (min 255 (pytrunc (12.9 : ℚ))) ∧
     clamp (-5) 0 255 = 0 ∧ clamp 300 0 255 = 255 ∧ clamp (12.9 : ℚ) 0 255 = 12) :=
  ⟨by decide, C9_clamp_truncates_then_bounds 12.9 0 255 (by decide)⟩

end AStar
